import Mathlib

/-!
Verification of the `pkg/distlock` distributed-lock subsystem.

This file gives a shallow embedding, in Lean, of the distributed-lock
adapters of the repository (`pkg/distlock`): the option/configuration
layer, and the seven backend adapters (GORM, Zookeeper, Etcd, Redis,
Memcached, MongoDB, Consul).  Each Go method is translated into a pure
Lean function: the backend store becomes an explicit value threaded
through the function, timestamps and durations become `Nat` (seconds,
the unit the source uses when converting `time.Duration` for the
backends), and each fallible method returns `Except String Unit`
mirroring the `error` result.  In addition to the result, each operation
returns the updated locker struct, the updated backend state, and the
list of backend / scheduler actions it performed, in program order, so
that ordering properties can be stated.

Transport-level failures (the backend being unreachable) are outside the
model: every modelled backend call behaves as documented by its client
library on a reachable backend.
-/

namespace Distlock

/-- Logger implementations of `pkg/logger`: the `empty` package's no-op
logger and the `onex` package's forwarding logger. -/
inductive LoggerImpl where
  | empty
  | onex
deriving DecidableEq, Repr

/-- Lines a logger implementation emits for a message: the `empty`
logger performs no operation, the `onex` logger forwards the message. -/
def loggerEmits : LoggerImpl → String → List String
  | LoggerImpl.empty, _ => []
  | LoggerImpl.onex, m => [m]

/-- `empty.NewLogger` returns the no-op logger. -/
def emptyNewLogger : LoggerImpl := LoggerImpl.empty

/-- `DefaultLockName` constant from the source. -/
def DefaultLockName : String := "onex-distributed-lock"

/-- The `Options` configuration struct of the `distlock` package. -/
structure Options where
  lockName : String
  lockTimeout : Nat
  ownerID : String
  logger : LoggerImpl
deriving DecidableEq, Repr

/-- `NewOptions` initializes `Options` with the default values.  The
source obtains the default owner from `os.Hostname()`; the hostname is a
parameter of the model. -/
def NewOptions (hostname : String) : Options :=
  { lockName := DefaultLockName
    lockTimeout := 10
    ownerID := hostname
    logger := emptyNewLogger }

/-- `ApplyOptions` folds the supplied option functions over the default
options. -/
def ApplyOptions (hostname : String) (opts : List (Options → Options)) : Options :=
  opts.foldl (fun o f => f o) (NewOptions hostname)

/-- `WithLockName` sets the lock name. -/
def WithLockName (name : String) : Options → Options :=
  fun o => { o with lockName := name }

/-- `WithLockTimeout` sets the lock timeout. -/
def WithLockTimeout (timeout : Nat) : Options → Options :=
  fun o => { o with lockTimeout := timeout }

/-- `WithOwnerID` sets the owner ID. -/
def WithOwnerID (ownerID : String) : Options → Options :=
  fun o => { o with ownerID := ownerID }

/-- `WithLogger` sets the logger. -/
def WithLogger (lg : LoggerImpl) : Options → Options :=
  fun o => { o with logger := lg }

/-- C9: constructing with no options yields exactly the documented
defaults (the fixed well-known lock name, a 10-unit timeout, the host
identity as owner, and the silent no-op logger), and each option
function, applied at construction, overrides exactly its own field,
leaving the other three at their default values. -/
theorem C9_defaults_and_overrides (hostname name oid m : String) (t : Nat)
    (lg : LoggerImpl) :
    ApplyOptions hostname [] =
      { lockName := DefaultLockName, lockTimeout := 10, ownerID := hostname,
        logger := LoggerImpl.empty } ∧
    loggerEmits (ApplyOptions hostname []).logger m = [] ∧
    ApplyOptions hostname [WithLockName name] =
      { NewOptions hostname with lockName := name } ∧
    ApplyOptions hostname [WithLockTimeout t] =
      { NewOptions hostname with lockTimeout := t } ∧
    ApplyOptions hostname [WithOwnerID oid] =
      { NewOptions hostname with ownerID := oid } ∧
    ApplyOptions hostname [WithLogger lg] =
      { NewOptions hostname with logger := lg } := by
  refine ⟨rfl, rfl, rfl, rfl, rfl, rfl⟩

/-- Backend and scheduler actions an adapter operation performs, in
program order.  `stopChanClose` / `stopChanSend` would be a close of or
a send on the `stopChan` channel consulted by the renewal goroutine;
`startTicker` / `stopTicker` are `time.NewTicker` / `Ticker.Stop`;
`spawnRenewGoroutine` is the `go l.renewLock(...)` statement; the rest
are the backend client calls of the individual adapters. -/
inductive Action where
  | startTicker (interval : Nat)
  | stopTicker
  | stopChanClose
  | stopChanSend
  | spawnRenewGoroutine
  | dbCreateRow (name owner : String) (expiredAt : Nat)
  | dbFetchRow (name : String)
  | dbSaveRow (name owner : String) (expiredAt : Nat)
  | dbDeleteRows (name : String)
  | dbUpdateExpiry (name : String) (expiredAt : Nat)
  | zkCreateNode (path : String) (flags : Nat)
  | zkDeleteNode (path : String)
  | leaseGrant (id ttl : Nat)
  | etcdPut (key value : String) (leaseID : Nat)
  | etcdDeleteKey (key : String)
  | leaseRevoke (id : Nat)
  | leaseKeepAlive (id : Nat)
  | redisSetNX (key value : String) (ttl : Nat)
  | redisGet (key : String)
  | redisExpire (key : String) (ttl : Nat)
  | redisDel (key : String)
  | mcAdd (key value : String) (ttl : Nat)
  | mcReplace (key value : String) (ttl : Nat)
  | mcDelete (key : String)
  | mongoUpsert (name owner : String) (expiredAt : Nat)
  | mongoDeleteOne (name : String)
  | mongoSetExpiry (name : String) (expiredAt : Nat)
  | sessionCreate (id : String) (ttl : Nat)
  | consulPut (key value sessionID : String)
  | consulDeleteKey (key : String)
  | sessionRenew (id : String)
deriving DecidableEq, Repr

/-- Whether an action is a signal (close or send) on the stop channel. -/
def Action.isStopChanSignal : Action → Bool
  | Action.stopChanClose => true
  | Action.stopChanSend => true
  | _ => false

/-- An action list contains no close of and no send on the stop
channel. -/
def noStopSignal (acts : List Action) : Bool :=
  acts.all (fun a => !a.isStopChanSignal)

/-- The result type of the lock operations: Go's `error` return. -/
abbrev LockResult := Except String Unit

/-! ## GORM adapter (`gorm.go`) -/

/-- A row of the `Lock` table (`gorm.go`): unique `Name`, `OwnerID`,
`ExpiredAt`.  The surrogate id and created/updated timestamps play no
role in the lock logic and are omitted. -/
structure GormRow where
  name : String
  ownerID : String
  expiredAt : Nat
deriving DecidableEq, Repr

/-- The lock table: rows with unique names. -/
abbrev GormDB := List GormRow

/-- The `GORMLocker` struct: its configuration fields and the renewal
ticker (`some interval` models a live `*time.Ticker` with that tick
interval, `none` models the nil pointer). -/
structure GORMLocker where
  lockName : String
  lockTimeout : Nat
  ownerID : String
  logger : LoggerImpl
  renewTicker : Option Nat
deriving DecidableEq, Repr

/-- The configuration fields of a `GORMLocker`. -/
def gormConfig (l : GORMLocker) : String × Nat × String × LoggerImpl :=
  (l.lockName, l.lockTimeout, l.ownerID, l.logger)

/-- First row of the table with the given name (`tx.First(&lock,
"name = ?", ...)`). -/
def gormFind (db : GormDB) (name : String) : Option GormRow :=
  db.find? (fun r => r.name == name)

/-- Replace the rows with the given name (`tx.Save` of the fetched row;
names are unique). -/
def gormReplace (db : GormDB) (name : String) (row : GormRow) : GormDB :=
  db.map (fun r => if r.name == name then row else r)

/-- `GORMLocker.Lock`: inside a transaction, insert
`{Name, OwnerID, ExpiredAt := now + lockTimeout}`; on a duplicate-entry
error fetch the existing row; if its expiry has not passed
(`!lock.ExpiredAt.Before(now)`) fail with an error naming the holder
(the transaction rolls back, leaving the table unchanged); otherwise
save the row with the new owner and expiry.  On success start the
renewal ticker at `lockTimeout / 2` and spawn the renewal goroutine. -/
def gormLock (l : GORMLocker) (db : GormDB) (now : Nat) :
    LockResult × GORMLocker × GormDB × List Action :=
  let expiredAt := now + l.lockTimeout
  match gormFind db l.lockName with
  | none =>
      (Except.ok (), { l with renewTicker := some (l.lockTimeout / 2) },
        db ++ [⟨l.lockName, l.ownerID, expiredAt⟩],
        [Action.dbCreateRow l.lockName l.ownerID expiredAt,
         Action.startTicker (l.lockTimeout / 2), Action.spawnRenewGoroutine])
  | some row =>
      if row.expiredAt < now then
        (Except.ok (), { l with renewTicker := some (l.lockTimeout / 2) },
          gormReplace db l.lockName ⟨l.lockName, l.ownerID, expiredAt⟩,
          [Action.dbCreateRow l.lockName l.ownerID expiredAt,
           Action.dbFetchRow l.lockName,
           Action.dbSaveRow l.lockName l.ownerID expiredAt,
           Action.startTicker (l.lockTimeout / 2), Action.spawnRenewGoroutine])
      else
        (Except.error ("lock is already held by " ++ row.ownerID), l, db,
          [Action.dbCreateRow l.lockName l.ownerID expiredAt,
           Action.dbFetchRow l.lockName])

/-- `GORMLocker.Unlock`: stop the ticker if it is running, then delete
the rows with the lock name (deleting zero rows is not an error). -/
def gormUnlock (l : GORMLocker) (db : GormDB) :
    LockResult × GORMLocker × GormDB × List Action :=
  let stopActs := if l.renewTicker.isSome then [Action.stopTicker] else []
  (Except.ok (), { l with renewTicker := none },
    db.filter (fun r => r.name != l.lockName),
    stopActs ++ [Action.dbDeleteRows l.lockName])

/-- `GORMLocker.Renew`: update `expired_at` to `now + lockTimeout` on
the rows with the lock name (zero matched rows is not an error). -/
def gormRenew (l : GORMLocker) (db : GormDB) (now : Nat) :
    LockResult × GORMLocker × GormDB × List Action :=
  let expiredAt := now + l.lockTimeout
  (Except.ok (), l,
    db.map (fun r => if r.name == l.lockName then { r with expiredAt := expiredAt } else r),
    [Action.dbUpdateExpiry l.lockName expiredAt])

/-! ## MongoDB adapter (`mongo.go`) -/

/-- A document of the `locks` collection. -/
structure MongoDoc where
  name : String
  ownerID : String
  expiredAt : Nat
deriving DecidableEq, Repr

/-- The `locks` collection. -/
abbrev MongoColl := List MongoDoc

/-- The `MongoLocker` struct: its configuration fields and the renewal
ticker. -/
structure MongoLocker where
  lockName : String
  lockTimeout : Nat
  ownerID : String
  logger : LoggerImpl
  renewTicker : Option Nat
deriving DecidableEq, Repr

/-- The configuration fields of a `MongoLocker`. -/
def mongoConfig (l : MongoLocker) : String × Nat × String × LoggerImpl :=
  (l.lockName, l.lockTimeout, l.ownerID, l.logger)

/-- Delete the first document with the given name (`DeleteOne`). -/
def mongoDeleteFirst (coll : MongoColl) (name : String) : MongoColl :=
  match coll with
  | [] => []
  | d :: ds => if d.name == name then ds else d :: mongoDeleteFirst ds name

/-- Set `expiredAt` on the first document with the given name
(`UpdateOne` with a `$set`). -/
def mongoSetExpiryFirst (coll : MongoColl) (name : String) (expiredAt : Nat) : MongoColl :=
  match coll with
  | [] => []
  | d :: ds =>
      if d.name == name then { d with expiredAt := expiredAt } :: ds
      else d :: mongoSetExpiryFirst ds name expiredAt

/-- The error MongoDB returns for an update document that sets the same
path in both `$set` and `$setOnInsert` (code
`ConflictingUpdateOperators`). -/
def mongoConflictingUpdateErr : String :=
  "Updating the path 'ownerID' would create a conflict at 'ownerID'"

/-- `MongoLocker.Lock`: one `UpdateOne` with filter `{name}`, the update
document `{$setOnInsert: {ownerID, expiredAt}, $set: {ownerID,
expiredAt}}` and `upsert: true`, where `expiredAt = now + lockTimeout`.
Because the update document sets the same paths (`ownerID`,
`expiredAt`) in both `$set` and `$setOnInsert`, MongoDB rejects it with
a `ConflictingUpdateOperators` error: the `UpdateOne` call always
returns an error and writes nothing, so `Lock` always takes its
`err != nil` branch and returns the wrapped `failed to acquire lock`
error — from every collection state — leaving the collection unchanged,
never reaching the `MatchedCount` test and never starting the renewal
ticker.  The emitted action records the attempted (rejected)
`UpdateOne`. -/
def mongoLock (l : MongoLocker) (coll : MongoColl) (now : Nat) :
    LockResult × MongoLocker × MongoColl × List Action :=
  let expiredAt := now + l.lockTimeout
  (Except.error ("failed to acquire lock: " ++ mongoConflictingUpdateErr), l, coll,
    [Action.mongoUpsert l.lockName l.ownerID expiredAt])

/-- `MongoLocker.Unlock`: stop the ticker if running, `DeleteOne` on the
name (matching zero documents is not an error), then clear the struct's
`ownerID` to the empty string. -/
def mongoUnlock (l : MongoLocker) (coll : MongoColl) :
    LockResult × MongoLocker × MongoColl × List Action :=
  let stopActs := if l.renewTicker.isSome then [Action.stopTicker] else []
  (Except.ok (), { l with renewTicker := none, ownerID := "" },
    mongoDeleteFirst coll l.lockName,
    stopActs ++ [Action.mongoDeleteOne l.lockName])

/-- `MongoLocker.Renew`: `UpdateOne` setting `expiredAt` to
`now + lockTimeout` on the name (matching zero documents is not an
error). -/
def mongoRenew (l : MongoLocker) (coll : MongoColl) (now : Nat) :
    LockResult × MongoLocker × MongoColl × List Action :=
  let expiredAt := now + l.lockTimeout
  (Except.ok (), l, mongoSetExpiryFirst coll l.lockName expiredAt,
    [Action.mongoSetExpiry l.lockName expiredAt])

/-- A GORM locker with owner `owner-a`, the default name and timeout,
and no live ticker. -/
def gormLockerA : GORMLocker :=
  { lockName := DefaultLockName, lockTimeout := 10, ownerID := "owner-a",
    logger := LoggerImpl.empty, renewTicker := none }

/-- A Mongo locker with owner `owner-a`, the default name and timeout,
and no live ticker. -/
def mongoLockerA : MongoLocker :=
  { lockName := DefaultLockName, lockTimeout := 10, ownerID := "owner-a",
    logger := LoggerImpl.empty, renewTicker := none }

/-- C1: the Mongo adapter cannot perform the claimed transactional
upsert at all.  Its update document sets the same paths in both `$set`
and `$setOnInsert`, which MongoDB rejects (ConflictingUpdateOperators),
so `Lock` always returns the wrapped failed-to-acquire error and writes
nothing.  Evaluating `mongoLock` where the claim mandates success: (i)
on the empty collection at `now = 0` — the claim mandates inserting
`{name, owner-a, expiry 10}` — Lock errors, the collection stays empty
and the ticker never starts; (ii) on a collection holding only the
*expired* record of `owner-b` (expiry 0, `now = 5`) — the claim
mandates stealing it — Lock errors and the stale record stays.  For
contrast, `gormLock` on the same expired record succeeds and overwrites
it with `{owner-a, expiry 15}`, as the claim states. -/
theorem C1_mongo_lock_always_fails :
    (mongoLock mongoLockerA [] 0).1 =
      Except.error ("failed to acquire lock: " ++ mongoConflictingUpdateErr) ∧
    (mongoLock mongoLockerA [] 0).2.2.1 = [] ∧
    (mongoLock mongoLockerA [] 0).2.1.renewTicker = none ∧
    (mongoLock mongoLockerA [⟨DefaultLockName, "owner-b", 0⟩] 5).1 =
      Except.error ("failed to acquire lock: " ++ mongoConflictingUpdateErr) ∧
    (mongoLock mongoLockerA [⟨DefaultLockName, "owner-b", 0⟩] 5).2.2.1 =
      [⟨DefaultLockName, "owner-b", 0⟩] ∧
    (gormLock gormLockerA [⟨DefaultLockName, "owner-b", 0⟩] 5).1 = Except.ok () ∧
    (gormLock gormLockerA [⟨DefaultLockName, "owner-b", 0⟩] 5).2.2.1 =
      [⟨DefaultLockName, "owner-a", 15⟩] := by
  refine ⟨rfl, rfl, rfl, rfl, rfl, rfl, rfl⟩

/-! ## Zookeeper adapter (`zookeeper.go`) -/

/-- A Zookeeper node: its path and whether it was created ephemeral
(creation flag bit `zk.FlagEphemeral = 1`). -/
structure ZkNode where
  path : String
  ephemeral : Bool
deriving DecidableEq, Repr

/-- The Zookeeper node tree, flattened to the node list. -/
abbrev ZkNodes := List ZkNode

/-- `zk.FlagEphemeral`. -/
def FlagEphemeral : Nat := 1

/-- The `ZookeeperLocker` struct: its configuration fields and the
renewal ticker. -/
structure ZookeeperLocker where
  lockPath : String
  lockTimeout : Nat
  ownerID : String
  logger : LoggerImpl
  renewTicker : Option Nat
deriving DecidableEq, Repr

/-- The configuration fields of a `ZookeeperLocker`. -/
def zkConfig (l : ZookeeperLocker) : String × Nat × String × LoggerImpl :=
  (l.lockPath, l.lockTimeout, l.ownerID, l.logger)

/-- The node path `fmt.Sprintf("%s/%s", l.lockPath, l.ownerID)`. -/
def zkLockNode (l : ZookeeperLocker) : String :=
  l.lockPath ++ "/" ++ l.ownerID

/-- `zk.Conn.Create`: fails if the node exists, otherwise creates a node
whose ephemerality is the `FlagEphemeral` bit of the flags argument. -/
def zkCreate (nodes : ZkNodes) (path : String) (flags : Nat) : Except String ZkNodes :=
  if (nodes.find? (fun n => n.path == path)).isSome then
    Except.error "node exists"
  else
    Except.ok (nodes ++ [⟨path, decide (flags / FlagEphemeral % 2 = 1)⟩])

/-- End of the client session: Zookeeper removes the ephemeral nodes of
the session; persistent nodes survive. -/
def zkSessionEnd (nodes : ZkNodes) : ZkNodes :=
  nodes.filter (fun n => !n.ephemeral)

/-- `ZookeeperLocker.Lock`: create the node `lockPath/ownerID` with
flags `0` (no `FlagEphemeral`); if the node exists fail with
`lock is already held by another owner`; on success start the renewal
ticker at `lockTimeout / 2` and spawn the renewal goroutine. -/
def zkLock (l : ZookeeperLocker) (nodes : ZkNodes) :
    LockResult × ZookeeperLocker × ZkNodes × List Action :=
  let node := zkLockNode l
  match zkCreate nodes node 0 with
  | Except.error _ =>
      (Except.error "lock is already held by another owner", l, nodes,
        [Action.zkCreateNode node 0])
  | Except.ok nodes1 =>
      (Except.ok (), { l with renewTicker := some (l.lockTimeout / 2) }, nodes1,
        [Action.zkCreateNode node 0, Action.startTicker (l.lockTimeout / 2),
         Action.spawnRenewGoroutine])

/-- `ZookeeperLocker.Unlock`: stop the ticker if running, delete the
node `lockPath/ownerID` (`zk.Conn.Delete` fails when the node does not
exist); on success clear the struct's `ownerID` to the empty string. -/
def zkUnlock (l : ZookeeperLocker) (nodes : ZkNodes) :
    LockResult × ZookeeperLocker × ZkNodes × List Action :=
  let stopActs := if l.renewTicker.isSome then [Action.stopTicker] else []
  let node := zkLockNode l
  if (nodes.find? (fun n => n.path == node)).isSome then
    (Except.ok (), { l with renewTicker := none, ownerID := "" },
      nodes.filter (fun n => n.path != node),
      stopActs ++ [Action.zkDeleteNode node])
  else
    (Except.error "failed to release lock: node does not exist",
      { l with renewTicker := none }, nodes,
      stopActs ++ [Action.zkDeleteNode node])

/-- `ZookeeperLocker.Renew`: only logs ("Simulate the renewal
operation"); no backend call. -/
def zkRenew (l : ZookeeperLocker) (nodes : ZkNodes) :
    LockResult × ZookeeperLocker × ZkNodes × List Action :=
  (Except.ok (), l, nodes, [])

/-! ## Etcd adapter (`etcd.go`) -/

/-- An etcd key-value pair bound to a lease. -/
structure EtcdKV where
  key : String
  value : String
  leaseID : Nat
deriving DecidableEq, Repr

/-- The etcd backend: the key-value pairs, the live leases (id and
granted TTL), and the next lease id the backend will hand out. -/
structure EtcdBackend where
  kvs : List EtcdKV
  leases : List (Nat × Nat)
  nextLeaseID : Nat
deriving DecidableEq, Repr

/-- The `EtcdLocker` struct: its configuration fields, the stored lease
id, and the renewal ticker. -/
structure EtcdLocker where
  lockKey : String
  lockTimeout : Nat
  ownerID : String
  logger : LoggerImpl
  leaseID : Nat
  renewTicker : Option Nat
deriving DecidableEq, Repr

/-- The configuration fields of an `EtcdLocker`. -/
def etcdConfig (l : EtcdLocker) : String × Nat × String × LoggerImpl :=
  (l.lockKey, l.lockTimeout, l.ownerID, l.logger)

/-- `EtcdLocker.Lock`: grant a lease with TTL
`int64(l.lockTimeout.Seconds())`, store its id in the struct, then issue
a plain `Put` of `ownerID` under `lockKey` bound to the lease.  The put
is unconditional — it replaces any existing binding for the key and
never fails because the key pre-exists.  On success start the renewal
ticker at `lockTimeout / 2` and spawn the renewal goroutine. -/
def etcdLock (l : EtcdLocker) (b : EtcdBackend) :
    LockResult × EtcdLocker × EtcdBackend × List Action :=
  let id := b.nextLeaseID
  let ttl := l.lockTimeout
  let kvs1 := b.kvs.filter (fun kv => kv.key != l.lockKey) ++ [⟨l.lockKey, l.ownerID, id⟩]
  (Except.ok (),
    { l with leaseID := id, renewTicker := some (l.lockTimeout / 2) },
    { kvs := kvs1, leases := b.leases ++ [(id, ttl)], nextLeaseID := id + 1 },
    [Action.leaseGrant id ttl, Action.etcdPut l.lockKey l.ownerID id,
     Action.startTicker (l.lockTimeout / 2), Action.spawnRenewGoroutine])

/-- `EtcdLocker.Unlock`: stop the ticker if running, delete the key
(deleting a missing key is not an error), then revoke the stored lease
(revoking an unknown lease fails). -/
def etcdUnlock (l : EtcdLocker) (b : EtcdBackend) :
    LockResult × EtcdLocker × EtcdBackend × List Action :=
  let stopActs := if l.renewTicker.isSome then [Action.stopTicker] else []
  let l1 : EtcdLocker := { l with renewTicker := none }
  let kvs1 := b.kvs.filter (fun kv => kv.key != l.lockKey)
  let acts := stopActs ++ [Action.etcdDeleteKey l.lockKey, Action.leaseRevoke l.leaseID]
  if (b.leases.find? (fun p => p.1 == l.leaseID)).isSome then
    (Except.ok (), l1,
      { b with kvs := kvs1, leases := b.leases.filter (fun p => p.1 != l.leaseID) },
      acts)
  else
    (Except.error "failed to revoke lease: requested lease not found", l1,
      { b with kvs := kvs1 }, acts)

/-- `EtcdLocker.Renew`: `KeepAliveOnce` on the stored lease id; fails
when the lease no longer exists. -/
def etcdRenew (l : EtcdLocker) (b : EtcdBackend) :
    LockResult × EtcdLocker × EtcdBackend × List Action :=
  if (b.leases.find? (fun p => p.1 == l.leaseID)).isSome then
    (Except.ok (), l, b, [Action.leaseKeepAlive l.leaseID])
  else
    (Except.error "requested lease not found", l, b, [Action.leaseKeepAlive l.leaseID])

/-! ## Redis adapter (`redis.go`) -/

/-- A live Redis key with its value and remaining TTL. -/
structure RedisEntry where
  key : String
  value : String
  ttl : Nat
deriving DecidableEq, Repr

/-- The Redis keyspace. -/
abbrev RedisStore := List RedisEntry

/-- The `RedisLocker` struct: its configuration fields and the renewal
ticker. -/
structure RedisLocker where
  lockName : String
  lockTimeout : Nat
  ownerID : String
  logger : LoggerImpl
  renewTicker : Option Nat
deriving DecidableEq, Repr

/-- The configuration fields of a `RedisLocker`. -/
def redisConfig (l : RedisLocker) : String × Nat × String × LoggerImpl :=
  (l.lockName, l.lockTimeout, l.ownerID, l.logger)

/-- `RedisLocker.Lock`: `SetNX(lockName, ownerID, lockTimeout)`.  On a
fresh set, start the renewal ticker at `lockTimeout / 2`, spawn the
renewal goroutine and succeed.  If the key already exists, `Get` the
current owner: if it differs from `ownerID` fail with
`lock is already held by <owner>`; otherwise succeed without starting
the ticker. -/
def redisLock (l : RedisLocker) (st : RedisStore) :
    LockResult × RedisLocker × RedisStore × List Action :=
  match st.find? (fun e => e.key == l.lockName) with
  | none =>
      (Except.ok (), { l with renewTicker := some (l.lockTimeout / 2) },
        st ++ [⟨l.lockName, l.ownerID, l.lockTimeout⟩],
        [Action.redisSetNX l.lockName l.ownerID l.lockTimeout,
         Action.startTicker (l.lockTimeout / 2), Action.spawnRenewGoroutine])
  | some e =>
      if e.value != l.ownerID then
        (Except.error ("lock is already held by " ++ e.value), l, st,
          [Action.redisSetNX l.lockName l.ownerID l.lockTimeout,
           Action.redisGet l.lockName])
      else
        (Except.ok (), l, st,
          [Action.redisSetNX l.lockName l.ownerID l.lockTimeout,
           Action.redisGet l.lockName])

/-- `RedisLocker.Unlock`: stop the ticker if running, then `Del` the key
(deleting a missing key is not an error). -/
def redisUnlock (l : RedisLocker) (st : RedisStore) :
    LockResult × RedisLocker × RedisStore × List Action :=
  let stopActs := if l.renewTicker.isSome then [Action.stopTicker] else []
  (Except.ok (), { l with renewTicker := none },
    st.filter (fun e => e.key != l.lockName),
    stopActs ++ [Action.redisDel l.lockName])

/-- `RedisLocker.Renew`: `Expire(lockName, lockTimeout)`; expiring a
missing key returns false but no error. -/
def redisRenew (l : RedisLocker) (st : RedisStore) :
    LockResult × RedisLocker × RedisStore × List Action :=
  (Except.ok (), l,
    st.map (fun e => if e.key == l.lockName then { e with ttl := l.lockTimeout } else e),
    [Action.redisExpire l.lockName l.lockTimeout])

/-! ## Memcached adapter (`memcached.go`) -/

/-- A Memcached item with its value and expiration. -/
structure McEntry where
  key : String
  value : String
  ttl : Nat
deriving DecidableEq, Repr

/-- The Memcached keyspace. -/
abbrev McStore := List McEntry

/-- The `MemcachedLocker` struct: its configuration fields and the
renewal ticker. -/
structure MemcachedLocker where
  lockKey : String
  lockTimeout : Nat
  ownerID : String
  logger : LoggerImpl
  renewTicker : Option Nat
deriving DecidableEq, Repr

/-- The configuration fields of a `MemcachedLocker`. -/
def mcConfig (l : MemcachedLocker) : String × Nat × String × LoggerImpl :=
  (l.lockKey, l.lockTimeout, l.ownerID, l.logger)

/-- `MemcachedLocker.Lock`: `Add` the item (succeeds only if the key
does not exist).  On `ErrNotStored` — the key exists, whoever its owner
is — fail immediately with `lock is already held by another owner`; the
stored owner is never read.  On success start the renewal ticker at
`lockTimeout / 2` and spawn the renewal goroutine. -/
def memcachedLock (l : MemcachedLocker) (st : McStore) :
    LockResult × MemcachedLocker × McStore × List Action :=
  match st.find? (fun e => e.key == l.lockKey) with
  | some _ =>
      (Except.error "lock is already held by another owner", l, st,
        [Action.mcAdd l.lockKey l.ownerID l.lockTimeout])
  | none =>
      (Except.ok (), { l with renewTicker := some (l.lockTimeout / 2) },
        st ++ [⟨l.lockKey, l.ownerID, l.lockTimeout⟩],
        [Action.mcAdd l.lockKey l.ownerID l.lockTimeout,
         Action.startTicker (l.lockTimeout / 2), Action.spawnRenewGoroutine])

/-- `MemcachedLocker.Unlock`: stop the ticker if running, then `Delete`
the key (`ErrCacheMiss`, surfaced as a failure, when the key is
missing). -/
def memcachedUnlock (l : MemcachedLocker) (st : McStore) :
    LockResult × MemcachedLocker × McStore × List Action :=
  let stopActs := if l.renewTicker.isSome then [Action.stopTicker] else []
  let l1 : MemcachedLocker := { l with renewTicker := none }
  let acts := stopActs ++ [Action.mcDelete l.lockKey]
  if (st.find? (fun e => e.key == l.lockKey)).isSome then
    (Except.ok (), l1, st.filter (fun e => e.key != l.lockKey), acts)
  else
    (Except.error "failed to release lock: memcache: cache miss", l1, st, acts)

/-- `MemcachedLocker.Renew`: `Replace` the item (fails with
`ErrNotStored` when the key does not exist, surfaced as
`lock is not held by this owner anymore`). -/
def memcachedRenew (l : MemcachedLocker) (st : McStore) :
    LockResult × MemcachedLocker × McStore × List Action :=
  let acts := [Action.mcReplace l.lockKey l.ownerID l.lockTimeout]
  if (st.find? (fun e => e.key == l.lockKey)).isSome then
    (Except.ok (), l,
      st.map (fun e => if e.key == l.lockKey then ⟨l.lockKey, l.ownerID, l.lockTimeout⟩ else e),
      acts)
  else
    (Except.error "lock is not held by this owner anymore", l, st, acts)

/-! ## Consul adapter (`consul.go`) -/

/-- A Consul session with its TTL. -/
structure ConsulSession where
  id : String
  ttl : Nat
deriving DecidableEq, Repr

/-- A Consul key-value pair bound to a session. -/
structure ConsulKV where
  key : String
  value : String
  sessionID : String
deriving DecidableEq, Repr

/-- The Consul backend: live sessions, the key-value pairs, and the
counter the backend derives fresh session ids from. -/
structure ConsulBackend where
  sessions : List ConsulSession
  kvs : List ConsulKV
  nextSession : Nat
deriving DecidableEq, Repr

/-- The session id the backend hands out for its `n`-th session
creation. -/
def consulSessionID (n : Nat) : String :=
  "session-" ++ toString n

/-- The `ConsulLocker` struct: its configuration fields and the renewal
ticker.  The struct has no field for the session id: `Lock` passes the
id only to the renewal goroutine. -/
structure ConsulLocker where
  lockKey : String
  lockTimeout : Nat
  ownerID : String
  logger : LoggerImpl
  renewTicker : Option Nat
deriving DecidableEq, Repr

/-- The configuration fields of a `ConsulLocker`. -/
def consulConfig (l : ConsulLocker) : String × Nat × String × LoggerImpl :=
  (l.lockKey, l.lockTimeout, l.ownerID, l.logger)

/-- `ConsulLocker.Lock`: create a session with TTL `lockTimeout`
(obtaining a backend-generated session id), then `KV().Put` the pair
`{lockKey, ownerID}` bound to that session (the plain put replaces any
existing binding for the key).  On success start the renewal ticker at
`lockTimeout / 2` and spawn the renewal goroutine, passing it the
session id. -/
def consulLock (l : ConsulLocker) (b : ConsulBackend) :
    LockResult × ConsulLocker × ConsulBackend × List Action :=
  let sid := consulSessionID b.nextSession
  let kvs1 := b.kvs.filter (fun kv => kv.key != l.lockKey) ++ [⟨l.lockKey, l.ownerID, sid⟩]
  (Except.ok (), { l with renewTicker := some (l.lockTimeout / 2) },
    { sessions := b.sessions ++ [⟨sid, l.lockTimeout⟩], kvs := kvs1,
      nextSession := b.nextSession + 1 },
    [Action.sessionCreate sid l.lockTimeout,
     Action.consulPut l.lockKey l.ownerID sid,
     Action.startTicker (l.lockTimeout / 2), Action.spawnRenewGoroutine])

/-- `ConsulLocker.Unlock`: stop the ticker if running, then `KV().Delete`
the key (deleting a missing key is not an error). -/
def consulUnlock (l : ConsulLocker) (b : ConsulBackend) :
    LockResult × ConsulLocker × ConsulBackend × List Action :=
  let stopActs := if l.renewTicker.isSome then [Action.stopTicker] else []
  (Except.ok (), { l with renewTicker := none },
    { b with kvs := b.kvs.filter (fun kv => kv.key != l.lockKey) },
    stopActs ++ [Action.consulDeleteKey l.lockKey])

/-- `ConsulLocker.Renew`: `Session().Renew(l.ownerID, nil)` — the id it
passes to the session-renew call is the locker's `ownerID`, not a
session id; renewing an unknown session fails. -/
def consulRenew (l : ConsulLocker) (b : ConsulBackend) :
    LockResult × ConsulLocker × ConsulBackend × List Action :=
  let acts := [Action.sessionRenew l.ownerID]
  if (b.sessions.find? (fun s => s.id == l.ownerID)).isSome then
    (Except.ok (), l, b, acts)
  else
    (Except.error "failed to renew lock: session not found", l, b, acts)

/-! ## Concrete instances used by counterexamples and witnesses -/

/-- Whether a lock operation result is a success. -/
def lockResultOk : LockResult → Bool
  | Except.ok _ => true
  | Except.error _ => false

/-- An etcd locker with owner `owner-a`, the default name and timeout. -/
def etcdLockerA : EtcdLocker :=
  { lockKey := DefaultLockName, lockTimeout := 10, ownerID := "owner-a",
    logger := LoggerImpl.empty, leaseID := 0, renewTicker := none }

/-- An etcd backend where the lock key is already bound to `owner-b`
under the live lease `7` (granted TTL 10). -/
def etcdB0 : EtcdBackend :=
  { kvs := [⟨DefaultLockName, "owner-b", 7⟩], leases := [(7, 10)], nextLeaseID := 8 }

/-- A Redis locker with owner `owner-a`, the default name and timeout. -/
def redisLockerA : RedisLocker :=
  { lockName := DefaultLockName, lockTimeout := 10, ownerID := "owner-a",
    logger := LoggerImpl.empty, renewTicker := none }

/-- A Memcached locker with owner `owner-a`, the default name and
timeout. -/
def mcLockerA : MemcachedLocker :=
  { lockKey := DefaultLockName, lockTimeout := 10, ownerID := "owner-a",
    logger := LoggerImpl.empty, renewTicker := none }

/-- A Zookeeper locker with owner `owner-a`, the default path and
timeout. -/
def zkLockerA : ZookeeperLocker :=
  { lockPath := DefaultLockName, lockTimeout := 10, ownerID := "owner-a",
    logger := LoggerImpl.empty, renewTicker := none }

/-- A Consul locker with owner `owner-a`, the default key and timeout. -/
def consulLockerA : ConsulLocker :=
  { lockKey := DefaultLockName, lockTimeout := 10, ownerID := "owner-a",
    logger := LoggerImpl.empty, renewTicker := none }

/-- A fresh Consul backend: no sessions, no keys; the first session it
creates is `session-0`. -/
def consulB0 : ConsulBackend :=
  { sessions := [], kvs := [], nextSession := 0 }

/-! ## C2: etcd acquisition -/

/-- C2 counterexample: in a backend where the lock key already exists
under a live lease (`etcdB0`: key bound to `owner-b` via live lease 7),
`etcdLock` nevertheless succeeds — the put is not conditioned on the key
not existing, the pre-existing binding is replaced, and no
AcquisitionConflict is returned. -/
theorem C2_etcd_put_unconditional_cex :
    (etcdLock etcdLockerA etcdB0).1 = Except.ok () ∧
    (etcdLock etcdLockerA etcdB0).2.2.1.kvs = [⟨DefaultLockName, "owner-a", 8⟩] := by
  refine ⟨rfl, rfl⟩

/-- C2 amended: `EtcdLocker.Lock` first obtains a lease of duration
`lockTimeout` and then writes the lock key bound to that lease
*unconditionally*: from every backend state — including one where the
key pre-exists under a live lease — Lock succeeds, its action sequence
is exactly lease-grant, put, ticker-start, goroutine-spawn, the granted
lease is live afterwards, and the key is bound to the caller's owner
under the new lease (any previous binding is replaced); Lock never
returns an AcquisitionConflict failure. -/
theorem C2_etcd_lock_amended (l : EtcdLocker) (b : EtcdBackend) :
    (etcdLock l b).1 = Except.ok () ∧
    (etcdLock l b).2.2.2 =
      [Action.leaseGrant b.nextLeaseID l.lockTimeout,
       Action.etcdPut l.lockKey l.ownerID b.nextLeaseID,
       Action.startTicker (l.lockTimeout / 2), Action.spawnRenewGoroutine] ∧
    (b.nextLeaseID, l.lockTimeout) ∈ (etcdLock l b).2.2.1.leases ∧
    (⟨l.lockKey, l.ownerID, b.nextLeaseID⟩ : EtcdKV) ∈ (etcdLock l b).2.2.1.kvs ∧
    (∀ kv ∈ (etcdLock l b).2.2.1.kvs, kv.key = l.lockKey →
      kv = ⟨l.lockKey, l.ownerID, b.nextLeaseID⟩) := by
  refine ⟨rfl, rfl, ?_, ?_, ?_⟩
  · simp [etcdLock]
  · simp [etcdLock]
  · intro kv hkv hkey
    simp only [etcdLock, List.mem_append, List.mem_filter, List.mem_singleton] at hkv
    rcases hkv with ⟨_, hne⟩ | rfl
    · simp [hkey] at hne
    · rfl

/-- C2 witness: the amended statement applied to the backend `etcdB0`,
where the key pre-exists under a live lease; the uniqueness conjunct is
discharged at the concrete binding the put installed. -/
theorem C2_etcd_lock_amended_witness :
    (etcdLock etcdLockerA etcdB0).1 = Except.ok () ∧
    (⟨DefaultLockName, "owner-a", 8⟩ : EtcdKV) = ⟨DefaultLockName, "owner-a", 8⟩ := by
  have h := C2_etcd_lock_amended etcdLockerA etcdB0
  exact ⟨h.1, h.2.2.2.2 ⟨DefaultLockName, "owner-a", 8⟩ (by decide) (by decide)⟩

/-! ## C3: compare-and-swap acquisition -/

/-- C3 counterexample: the Memcached adapter, asked to lock while the
stored owner is its *own* `ownerID` (`owner-a`), fails with the
conflict error instead of treating the call as an idempotent
re-entry. -/
theorem C3_memcached_no_reentry_cex :
    (memcachedLock mcLockerA [⟨DefaultLockName, "owner-a", 10⟩]).1 =
      Except.error "lock is already held by another owner" := by
  rfl

/-- C3 amended: when the set-if-absent fails because the key exists, the
Redis adapter reads the stored owner and succeeds exactly when it equals
its own `ownerID`, failing with the conflict error naming the holder
otherwise; the Memcached adapter, by contrast, fails with the conflict
error whenever the key exists, without reading the stored owner — even
when the stored owner is its own `ownerID`. -/
theorem C3_cas_lock_amended :
    (∀ (l : RedisLocker) (st : RedisStore) (e : RedisEntry),
      st.find? (fun x => x.key == l.lockName) = some e →
      (e.value = l.ownerID → (redisLock l st).1 = Except.ok ()) ∧
      (e.value ≠ l.ownerID →
        (redisLock l st).1 = Except.error ("lock is already held by " ++ e.value))) ∧
    (∀ (l : MemcachedLocker) (st : McStore) (e : McEntry),
      st.find? (fun x => x.key == l.lockKey) = some e →
      (memcachedLock l st).1 = Except.error "lock is already held by another owner" ∧
      Action.redisGet l.lockKey ∉ (memcachedLock l st).2.2.2) := by
  constructor
  · intro l st e hfind
    constructor
    · intro hown
      simp [redisLock, hfind, hown]
    · intro hown
      simp [redisLock, hfind, hown]
  · intro l st e hfind
    constructor
    · simp [memcachedLock, hfind]
    · simp [memcachedLock, hfind]

/-- C3 witness: the amended statement applied at concrete inputs — a
Redis store holding the caller's own owner id (re-entry succeeds), a
Redis store holding `owner-b` (conflict naming `owner-b`), and a
Memcached store holding the caller's own owner id (conflict anyway). -/
theorem C3_cas_lock_amended_witness :
    (redisLock redisLockerA [⟨DefaultLockName, "owner-a", 10⟩]).1 = Except.ok () ∧
    (redisLock redisLockerA [⟨DefaultLockName, "owner-b", 10⟩]).1 =
      Except.error "lock is already held by owner-b" ∧
    (memcachedLock mcLockerA [⟨DefaultLockName, "owner-a", 10⟩]).1 =
      Except.error "lock is already held by another owner" := by
  refine ⟨(C3_cas_lock_amended.1 redisLockerA [⟨DefaultLockName, "owner-a", 10⟩]
      ⟨DefaultLockName, "owner-a", 10⟩ rfl).1 rfl,
    (C3_cas_lock_amended.1 redisLockerA [⟨DefaultLockName, "owner-b", 10⟩]
      ⟨DefaultLockName, "owner-b", 10⟩ rfl).2 (by decide),
    (C3_cas_lock_amended.2 mcLockerA [⟨DefaultLockName, "owner-a", 10⟩]
      ⟨DefaultLockName, "owner-a", 10⟩ rfl).1⟩

/-! ## C6: consul renewal -/

/-- C6: `ConsulLocker.Renew` does not renew the session created during
`Lock`.  From a fresh backend, `consulLock` creates session `session-0`
with TTL 10 and binds the lock key to it; the subsequent `consulRenew`
issues its session-renew call on `owner-a` — the locker's `ownerID`,
which is not the created session id (the struct never stores the session
id) — and fails, since no session named `owner-a` exists. -/
theorem C6_consul_renew_wrong_session :
    (consulLock consulLockerA consulB0).2.2.1.kvs =
      [⟨DefaultLockName, "owner-a", "session-0"⟩] ∧
    (consulLock consulLockerA consulB0).2.2.1.sessions = [⟨"session-0", 10⟩] ∧
    Action.sessionCreate "session-0" 10 ∈ (consulLock consulLockerA consulB0).2.2.2 ∧
    (consulRenew consulLockerA (consulLock consulLockerA consulB0).2.2.1).2.2.2 =
      [Action.sessionRenew "owner-a"] ∧
    (consulRenew consulLockerA (consulLock consulLockerA consulB0).2.2.1).1 =
      Except.error "failed to renew lock: session not found" ∧
    "owner-a" ≠ "session-0" := by
  refine ⟨rfl, rfl, by decide, rfl, rfl, by decide⟩

/-! ## C7: zookeeper node mode -/

/-- C7 counterexample: on an empty tree, `zkLock` succeeds and creates
the node `onex-distributed-lock/owner-a` with creation flags `0` — a
*persistent* node — and the node is still present after the client
session ends. -/
theorem C7_zk_persistent_node_cex :
    (zkLock zkLockerA []).1 = Except.ok () ∧
    (zkLock zkLockerA []).2.2.1 = [⟨"onex-distributed-lock/owner-a", false⟩] ∧
    zkSessionEnd (zkLock zkLockerA []).2.2.1 =
      [⟨"onex-distributed-lock/owner-a", false⟩] := by
  refine ⟨rfl, by decide, by decide⟩

/-- C7 amended: whenever `zkLock` succeeds, it has created the lock node
with creation flags `0` — without the `FlagEphemeral` bit — so the node
is persistent and survives the end of the client session. -/
theorem C7_zk_lock_persistent (l : ZookeeperLocker) (nodes : ZkNodes)
    (h : (zkLock l nodes).1 = Except.ok ()) :
    Action.zkCreateNode (zkLockNode l) 0 ∈ (zkLock l nodes).2.2.2 ∧
    (⟨zkLockNode l, false⟩ : ZkNode) ∈ (zkLock l nodes).2.2.1 ∧
    (⟨zkLockNode l, false⟩ : ZkNode) ∈ zkSessionEnd (zkLock l nodes).2.2.1 := by
  unfold zkLock at h ⊢
  rcases hc : zkCreate nodes (zkLockNode l) 0 with herr | hok
  · simp [hc] at h
  · have hok' : hok = nodes ++ [⟨zkLockNode l, false⟩] := by
      unfold zkCreate at hc
      by_cases hex : (nodes.find? (fun n => n.path == zkLockNode l)).isSome
      · simp [hex] at hc
      · simp [hex] at hc
        simp [← hc, FlagEphemeral]
    subst hok'
    simp [hc, zkSessionEnd]

/-- C7 witness: the amended statement applied to the empty tree. -/
theorem C7_zk_lock_persistent_witness :
    Action.zkCreateNode (zkLockNode zkLockerA) 0 ∈ (zkLock zkLockerA []).2.2.2 ∧
    (⟨zkLockNode zkLockerA, false⟩ : ZkNode) ∈ (zkLock zkLockerA []).2.2.1 ∧
    (⟨zkLockNode zkLockerA, false⟩ : ZkNode) ∈ zkSessionEnd (zkLock zkLockerA []).2.2.1 :=
  C7_zk_lock_persistent zkLockerA [] rfl

/-! ## C5: scheduler start on successful Lock -/

/-- C5 counterexample: the Redis adapter's re-entrant path — `SetNX`
fails, the stored owner equals the caller's own `ownerID` — returns
success but does not start the renewal scheduler: the ticker field stays
`none` and the action list is just the set and the get, with no
ticker-start. -/
theorem C5_redis_reentry_no_scheduler_cex :
    (redisLock redisLockerA [⟨DefaultLockName, "owner-a", 10⟩]).1 = Except.ok () ∧
    (redisLock redisLockerA [⟨DefaultLockName, "owner-a", 10⟩]).2.1.renewTicker = none ∧
    (redisLock redisLockerA [⟨DefaultLockName, "owner-a", 10⟩]).2.2.2 =
      [Action.redisSetNX DefaultLockName "owner-a" 10,
       Action.redisGet DefaultLockName] := by
  refine ⟨rfl, rfl, rfl⟩

/-- C5 amended: in every adapter, a `Lock` call that returns success by
*newly acquiring* the lock starts the periodic renewal scheduler with
tick interval `lockTimeout / 2`; the one exception is the Redis
adapter's re-entrant path (key already present, stored owner equal to
its own `ownerID`), which returns success while leaving the locker
unchanged and performing no ticker-start. -/
theorem C5_lock_success_starts_scheduler :
    (∀ (l : GORMLocker) (db : GormDB) (now : Nat),
      (gormLock l db now).1 = Except.ok () →
      (gormLock l db now).2.1.renewTicker = some (l.lockTimeout / 2) ∧
      Action.startTicker (l.lockTimeout / 2) ∈ (gormLock l db now).2.2.2) ∧
    (∀ (l : MongoLocker) (coll : MongoColl) (now : Nat),
      (mongoLock l coll now).1 = Except.ok () →
      (mongoLock l coll now).2.1.renewTicker = some (l.lockTimeout / 2) ∧
      Action.startTicker (l.lockTimeout / 2) ∈ (mongoLock l coll now).2.2.2) ∧
    (∀ (l : ZookeeperLocker) (nodes : ZkNodes),
      (zkLock l nodes).1 = Except.ok () →
      (zkLock l nodes).2.1.renewTicker = some (l.lockTimeout / 2) ∧
      Action.startTicker (l.lockTimeout / 2) ∈ (zkLock l nodes).2.2.2) ∧
    (∀ (l : EtcdLocker) (b : EtcdBackend),
      (etcdLock l b).1 = Except.ok () →
      (etcdLock l b).2.1.renewTicker = some (l.lockTimeout / 2) ∧
      Action.startTicker (l.lockTimeout / 2) ∈ (etcdLock l b).2.2.2) ∧
    (∀ (l : MemcachedLocker) (st : McStore),
      (memcachedLock l st).1 = Except.ok () →
      (memcachedLock l st).2.1.renewTicker = some (l.lockTimeout / 2) ∧
      Action.startTicker (l.lockTimeout / 2) ∈ (memcachedLock l st).2.2.2) ∧
    (∀ (l : ConsulLocker) (b : ConsulBackend),
      (consulLock l b).1 = Except.ok () →
      (consulLock l b).2.1.renewTicker = some (l.lockTimeout / 2) ∧
      Action.startTicker (l.lockTimeout / 2) ∈ (consulLock l b).2.2.2) ∧
    (∀ (l : RedisLocker) (st : RedisStore),
      st.find? (fun e => e.key == l.lockName) = none →
      (redisLock l st).1 = Except.ok () ∧
      (redisLock l st).2.1.renewTicker = some (l.lockTimeout / 2) ∧
      Action.startTicker (l.lockTimeout / 2) ∈ (redisLock l st).2.2.2) ∧
    (∀ (l : RedisLocker) (st : RedisStore) (e : RedisEntry),
      st.find? (fun e => e.key == l.lockName) = some e →
      e.value = l.ownerID →
      (redisLock l st).1 = Except.ok () ∧
      (redisLock l st).2.1 = l ∧
      ∀ i, Action.startTicker i ∉ (redisLock l st).2.2.2) := by
  refine ⟨?_, ?_, ?_, ?_, ?_, ?_, ?_, ?_⟩
  · intro l db now h
    unfold gormLock at h ⊢
    rcases hf : gormFind db l.lockName with _ | row
    · simp [hf]
    · simp only [hf] at h ⊢
      by_cases hexp : row.expiredAt < now
      · simp [hexp]
      · simp [hexp] at h
  · intro l coll now h
    simp [mongoLock] at h
  · intro l nodes h
    unfold zkLock at h ⊢
    rcases hc : zkCreate nodes (zkLockNode l) 0 with herr | hok
    · simp [hc] at h
    · simp [hc]
  · intro l b _
    simp [etcdLock]
  · intro l st h
    unfold memcachedLock at h ⊢
    rcases hf : st.find? (fun e => e.key == l.lockKey) with _ | e
    · simp [hf]
    · simp [hf] at h
  · intro l b _
    simp [consulLock]
  · intro l st hf
    simp [redisLock, hf]
  · intro l st e hf hown
    simp [redisLock, hf, hown]

/-- C5 witness: the amended statement applied at concrete inputs — the
GORM adapter on an empty table (success, ticker at `10 / 2 = 5`) and the
Redis adapter on a store already holding its own owner id (success, no
ticker start). -/
theorem C5_lock_success_starts_scheduler_witness :
    ((gormLock gormLockerA [] 0).2.1.renewTicker = some 5 ∧
      Action.startTicker 5 ∈ (gormLock gormLockerA [] 0).2.2.2) ∧
    ((redisLock redisLockerA [⟨DefaultLockName, "owner-a", 10⟩]).1 = Except.ok () ∧
      (redisLock redisLockerA [⟨DefaultLockName, "owner-a", 10⟩]).2.1 = redisLockerA ∧
      ∀ i, Action.startTicker i ∉
        (redisLock redisLockerA [⟨DefaultLockName, "owner-a", 10⟩]).2.2.2) := by
  refine ⟨C5_lock_success_starts_scheduler.1 gormLockerA [] 0 rfl,
    C5_lock_success_starts_scheduler.2.2.2.2.2.2.2 redisLockerA
      [⟨DefaultLockName, "owner-a", 10⟩] ⟨DefaultLockName, "owner-a", 10⟩ rfl rfl⟩

/-! ## C8: immutability of the configuration fields -/

/-- C8 counterexample: `zkUnlock`, run by the locker whose `ownerID` is
`owner-a` on a tree containing its lock node, succeeds and sets the
struct's `ownerID` to the empty string; `mongoUnlock` does the same on
any collection.  The configuration is therefore not immutable under
`Unlock`. -/
theorem C8_unlock_clears_owner_cex :
    zkLockerA.ownerID = "owner-a" ∧
    (zkUnlock zkLockerA [⟨zkLockNode zkLockerA, false⟩]).1 = Except.ok () ∧
    (zkUnlock zkLockerA [⟨zkLockNode zkLockerA, false⟩]).2.1.ownerID = "" ∧
    mongoLockerA.ownerID = "owner-a" ∧
    (mongoUnlock mongoLockerA []).2.1.ownerID = "" := by
  refine ⟨rfl, rfl, rfl, rfl, rfl⟩

/-- C8 amended: in the GORM, Etcd, Redis, Memcached and Consul adapters
every operation leaves all four configuration fields (name, timeout,
owner id, logger) unchanged; in the Zookeeper and Mongo adapters `Lock`
and `Renew` do likewise, but `Unlock` — while preserving name, timeout
and logger — clears `ownerID` to the empty string (on success for
Zookeeper, unconditionally for Mongo). -/
theorem C8_config_immutable_amended :
    (∀ (l : GORMLocker) (db : GormDB) (now : Nat),
      gormConfig (gormLock l db now).2.1 = gormConfig l ∧
      gormConfig (gormUnlock l db).2.1 = gormConfig l ∧
      gormConfig (gormRenew l db now).2.1 = gormConfig l) ∧
    (∀ (l : EtcdLocker) (b : EtcdBackend),
      etcdConfig (etcdLock l b).2.1 = etcdConfig l ∧
      etcdConfig (etcdUnlock l b).2.1 = etcdConfig l ∧
      etcdConfig (etcdRenew l b).2.1 = etcdConfig l) ∧
    (∀ (l : RedisLocker) (st : RedisStore),
      redisConfig (redisLock l st).2.1 = redisConfig l ∧
      redisConfig (redisUnlock l st).2.1 = redisConfig l ∧
      redisConfig (redisRenew l st).2.1 = redisConfig l) ∧
    (∀ (l : MemcachedLocker) (st : McStore),
      mcConfig (memcachedLock l st).2.1 = mcConfig l ∧
      mcConfig (memcachedUnlock l st).2.1 = mcConfig l ∧
      mcConfig (memcachedRenew l st).2.1 = mcConfig l) ∧
    (∀ (l : ConsulLocker) (b : ConsulBackend),
      consulConfig (consulLock l b).2.1 = consulConfig l ∧
      consulConfig (consulUnlock l b).2.1 = consulConfig l ∧
      consulConfig (consulRenew l b).2.1 = consulConfig l) ∧
    (∀ (l : ZookeeperLocker) (nodes : ZkNodes),
      zkConfig (zkLock l nodes).2.1 = zkConfig l ∧
      zkConfig (zkRenew l nodes).2.1 = zkConfig l ∧
      (zkUnlock l nodes).2.1.lockPath = l.lockPath ∧
      (zkUnlock l nodes).2.1.lockTimeout = l.lockTimeout ∧
      (zkUnlock l nodes).2.1.logger = l.logger ∧
      (zkUnlock l nodes).2.1.ownerID =
        (if lockResultOk (zkUnlock l nodes).1 then "" else l.ownerID)) ∧
    (∀ (l : MongoLocker) (coll : MongoColl) (now : Nat),
      mongoConfig (mongoLock l coll now).2.1 = mongoConfig l ∧
      mongoConfig (mongoRenew l coll now).2.1 = mongoConfig l ∧
      (mongoUnlock l coll).2.1.lockName = l.lockName ∧
      (mongoUnlock l coll).2.1.lockTimeout = l.lockTimeout ∧
      (mongoUnlock l coll).2.1.logger = l.logger ∧
      (mongoUnlock l coll).2.1.ownerID = "") := by
  refine ⟨?_, ?_, ?_, ?_, ?_, ?_, ?_⟩
  · intro l db now
    refine ⟨?_, rfl, rfl⟩
    simp only [gormLock]
    split
    · rfl
    · split <;> rfl
  · intro l b
    refine ⟨rfl, ?_, ?_⟩
    · simp only [etcdUnlock]
      split <;> rfl
    · simp only [etcdRenew]
      split <;> rfl
  · intro l st
    refine ⟨?_, rfl, rfl⟩
    simp only [redisLock]
    split
    · rfl
    · split <;> rfl
  · intro l st
    refine ⟨?_, ?_, ?_⟩
    · simp only [memcachedLock]
      split <;> rfl
    · simp only [memcachedUnlock]
      split <;> rfl
    · simp only [memcachedRenew]
      split <;> rfl
  · intro l b
    refine ⟨rfl, rfl, ?_⟩
    simp only [consulRenew]
    split <;> rfl
  · intro l nodes
    refine ⟨?_, rfl, ?_, ?_, ?_, ?_⟩
    · simp only [zkLock]
      split <;> rfl
    · simp only [zkUnlock]
      split <;> rfl
    · simp only [zkUnlock]
      split <;> rfl
    · simp only [zkUnlock]
      split <;> rfl
    · simp only [zkUnlock]
      split <;> simp [lockResultOk]
  · intro l coll now
    refine ⟨rfl, rfl, rfl, rfl, rfl, rfl⟩

/-! ## C4: ordering of ticker stop, backend delete and renewal writes

Every adapter shares the same release/renewal skeleton (here quoted
from the Redis adapter): `Unlock` takes the mutex, calls
`renewTicker.Stop()` and then issues the backend delete, while the
goroutine spawned by `Lock` loops `select`-ing on `stopChan` and on the
ticker channel and, upon receiving a tick, calls `Renew`, which takes
the same mutex and issues the backend renewal write.  The transition
system below embeds exactly these interacting pieces.  Go's
`Ticker.Stop` prevents future ticks but neither closes the channel nor
retracts a tick already delivered, so a tick may sit in the channel (or
already be received, with the goroutine waiting on the mutex) while
`Unlock` runs. -/

/-- Events at the backend/scheduler boundary: the `Ticker.Stop` call in
`Unlock`, the backend delete in `Unlock`, and a backend renewal write
issued by the scheduler-triggered `Renew`. -/
inductive RenewEvent where
  | stopTicker
  | deleteKey
  | renewWrite
deriving DecidableEq, Repr

/-- State of one held lock's release/renewal race: whether the ticker
is still active (not yet stopped), whether a tick sits undelivered in
the ticker channel, whether the goroutine has received a tick and is in
`Renew` waiting for the mutex, and the events so far. -/
structure RenewSys where
  tickerActive : Bool
  tickPending : Bool
  renewInProgress : Bool
  events : List RenewEvent
deriving DecidableEq, Repr

/-- Interleaved atomic steps: `tick` — the runtime puts a tick into the
ticker channel (only while the ticker is active; the channel buffers
one tick); `receiveTick` — the goroutine receives the tick and enters
`Renew`, before acquiring the mutex; `renewWrite` — `Renew` acquires
the mutex and performs the backend write; `unlock` — `Unlock` runs its
whole mutex-protected body atomically: `Ticker.Stop` (when the ticker
field is non-nil) followed by the backend delete. -/
inductive RenewStep where
  | tick
  | receiveTick
  | renewWrite
  | unlock
deriving DecidableEq, Repr

/-- One step of the release/renewal transition system. -/
def renewSysStep (s : RenewSys) : RenewStep → RenewSys
  | RenewStep.tick =>
      if s.tickerActive && !s.tickPending then { s with tickPending := true } else s
  | RenewStep.receiveTick =>
      if s.tickPending && !s.renewInProgress then
        { s with tickPending := false, renewInProgress := true }
      else s
  | RenewStep.renewWrite =>
      if s.renewInProgress then
        { s with renewInProgress := false, events := s.events ++ [RenewEvent.renewWrite] }
      else s
  | RenewStep.unlock =>
      { s with tickerActive := false, events := s.events ++ (if s.tickerActive then [RenewEvent.stopTicker, RenewEvent.deleteKey] else [RenewEvent.deleteKey]) }

/-- Run a sequence of steps. -/
def renewSysRun (s : RenewSys) : List RenewStep → RenewSys
  | [] => s
  | st :: rest => renewSysRun (renewSysStep s st) rest

/-- The state right after a successful `Lock`: ticker active, no tick
in flight, no events yet. -/
def renewSysHeld : RenewSys :=
  { tickerActive := true, tickPending := false, renewInProgress := false, events := [] }

/-- Scans the events up to the first `stopTicker`: fails if a
`deleteKey` occurs before any `stopTicker` — i.e. checks that the
stopping of the scheduler happens before the backend delete. -/
def stopBeforeDelete : List RenewEvent → Bool
  | [] => true
  | RenewEvent.deleteKey :: _ => false
  | RenewEvent.stopTicker :: _ => true
  | RenewEvent.renewWrite :: rest => stopBeforeDelete rest

/-- Checks that no renewal backend write occurs at any point after the
first `stopTicker` — "no scheduler-initiated renewal backend write
occurs after release has begun". -/
def noRenewAfterRelease : List RenewEvent → Bool
  | [] => true
  | RenewEvent.stopTicker :: rest => rest.all (fun e => e != RenewEvent.renewWrite)
  | _ :: rest => noRenewAfterRelease rest

/-- Checks that every `stopTicker` is immediately followed by a
`deleteKey`: nothing — in particular no renewal write — interleaves
between the ticker stop and the backend delete of the same `Unlock`. -/
def stopFollowedByDelete : List RenewEvent → Bool
  | [] => true
  | [e] => e != RenewEvent.stopTicker
  | e :: e2 :: rest =>
      (e != RenewEvent.stopTicker || e2 == RenewEvent.deleteKey) &&
        stopFollowedByDelete (e2 :: rest)

/-- C4 counterexample: the interleaving in which the ticker fires and
the goroutine receives the tick just before `Unlock` runs.  `Unlock`
stops the ticker and deletes the backend record, and then the
already-received tick's `Renew` call proceeds and issues its backend
write — a scheduler-initiated renewal backend write after release has
begun (indeed after it completed), refuting the claim's second part. -/
theorem C4_renewal_after_release_cex :
    (renewSysRun renewSysHeld
      [RenewStep.tick, RenewStep.receiveTick, RenewStep.unlock,
       RenewStep.renewWrite]).events =
      [RenewEvent.stopTicker, RenewEvent.deleteKey, RenewEvent.renewWrite] ∧
    noRenewAfterRelease
      (renewSysRun renewSysHeld
        [RenewStep.tick, RenewStep.receiveTick, RenewStep.unlock,
         RenewStep.renewWrite]).events = false := by
  refine ⟨rfl, rfl⟩

/-- `stopBeforeDelete` is preserved by appending events, provided either
a `stopTicker` already occurred or the appended block passes the scan on
its own. -/
theorem stopBeforeDelete_append (l l2 : List RenewEvent)
    (h : stopBeforeDelete l = true)
    (h2 : RenewEvent.stopTicker ∈ l ∨ stopBeforeDelete l2 = true) :
    stopBeforeDelete (l ++ l2) = true := by
  induction l with
  | nil =>
      rcases h2 with h2 | h2
      · cases h2
      · simpa using h2
  | cons e rest ih =>
      cases e with
      | stopTicker => rfl
      | deleteKey => cases h
      | renewWrite =>
          have h2' : RenewEvent.stopTicker ∈ rest ∨ stopBeforeDelete l2 = true := by
            rcases h2 with h2 | h2
            · rcases List.mem_cons.mp h2 with h2 | h2
              · cases h2
              · exact Or.inl h2
            · exact Or.inr h2
          exact ih h h2'

/-- Appending a single non-`stopTicker` event preserves
`stopFollowedByDelete`. -/
theorem stopFollowedByDelete_append_single (l : List RenewEvent) (a : RenewEvent)
    (ha : a ≠ RenewEvent.stopTicker)
    (h : stopFollowedByDelete l = true) :
    stopFollowedByDelete (l ++ [a]) = true := by
  induction l with
  | nil => cases a <;> simp_all [stopFollowedByDelete]
  | cons e rest ih =>
      cases rest with
      | nil => cases e <;> cases a <;> simp_all [stopFollowedByDelete]
      | cons e2 rest2 =>
          simp only [List.cons_append, stopFollowedByDelete, Bool.and_eq_true] at h ⊢
          exact ⟨h.1, ih h.2⟩

/-- Appending the atomic `Unlock` block `[stopTicker, deleteKey]`
preserves `stopFollowedByDelete`. -/
theorem stopFollowedByDelete_append_stopdelete (l : List RenewEvent)
    (h : stopFollowedByDelete l = true) :
    stopFollowedByDelete (l ++ [RenewEvent.stopTicker, RenewEvent.deleteKey]) = true := by
  induction l with
  | nil => rfl
  | cons e rest ih =>
      cases rest with
      | nil => cases e <;> simp_all [stopFollowedByDelete]
      | cons e2 rest2 =>
          simp only [List.cons_append, stopFollowedByDelete, Bool.and_eq_true] at h ⊢
          exact ⟨h.1, ih h.2⟩

/-- Invariant of the release/renewal system: the event list passes both
ordering checks, and once the ticker has been stopped a `stopTicker`
event is on record. -/
def RenewInv (s : RenewSys) : Prop :=
  stopBeforeDelete s.events = true ∧
  stopFollowedByDelete s.events = true ∧
  (s.tickerActive = false → RenewEvent.stopTicker ∈ s.events)

/-- Every step preserves the invariant. -/
theorem renewInv_step (s : RenewSys) (st : RenewStep) (h : RenewInv s) :
    RenewInv (renewSysStep s st) := by
  obtain ⟨h1, h2, h3⟩ := h
  cases st with
  | tick =>
      simp only [renewSysStep]
      split
      · exact ⟨h1, h2, h3⟩
      · exact ⟨h1, h2, h3⟩
  | receiveTick =>
      simp only [renewSysStep]
      split
      · exact ⟨h1, h2, h3⟩
      · exact ⟨h1, h2, h3⟩
  | renewWrite =>
      simp only [renewSysStep]
      split
      · exact ⟨stopBeforeDelete_append s.events [RenewEvent.renewWrite] h1 (Or.inr rfl),
          stopFollowedByDelete_append_single s.events RenewEvent.renewWrite (by decide) h2,
          fun hta => List.mem_append_left _ (h3 hta)⟩
      · exact ⟨h1, h2, h3⟩
  | unlock =>
      simp only [renewSysStep]
      cases hta : s.tickerActive with
      | true =>
          refine ⟨?_, ?_, ?_⟩
          · simp only [hta, if_true]
            exact stopBeforeDelete_append s.events
              [RenewEvent.stopTicker, RenewEvent.deleteKey] h1 (Or.inr rfl)
          · simp only [hta, if_true]
            exact stopFollowedByDelete_append_stopdelete s.events h2
          · intro _
            simp only [hta, if_true]
            exact List.mem_append_right _ (by decide)
      | false =>
          refine ⟨?_, ?_, ?_⟩
          · simp only [hta, if_false]
            exact stopBeforeDelete_append s.events [RenewEvent.deleteKey] h1
              (Or.inl (h3 hta))
          · simp only [hta, if_false]
            exact stopFollowedByDelete_append_single s.events RenewEvent.deleteKey
              (by decide) h2
          · intro _
            simp only [hta, if_false]
            exact List.mem_append_left _ (h3 hta)

/-- Runs preserve the invariant. -/
theorem renewInv_run (s : RenewSys) (steps : List RenewStep) (h : RenewInv s) :
    RenewInv (renewSysRun s steps) := by
  induction steps generalizing s with
  | nil => exact h
  | cons st rest ih => exact ih _ (renewInv_step s st h)

/-- C4 amended: in every interleaving of ticks, tick receipt,
scheduler-triggered renewal writes and `Unlock` from the held state,
the `Ticker.Stop` happens before the backend delete, and — because
`Unlock`'s body runs under the locker's mutex — no renewal backend
write interleaves between the stop and the delete; however (see the
counterexample) a tick received before the stop can still produce a
renewal backend write after release has begun. -/
theorem C4_release_ordering_amended (steps : List RenewStep) :
    stopBeforeDelete (renewSysRun renewSysHeld steps).events = true ∧
    stopFollowedByDelete (renewSysRun renewSysHeld steps).events = true := by
  have h := renewInv_run renewSysHeld steps
    ⟨rfl, rfl, by intro hc; simp [renewSysHeld] at hc⟩
  exact ⟨h.1, h.2.1⟩

/-! ## C10: no operation ever signals the stop channel

In every adapter, the renewal goroutine (`renewLock`) returns only when
its `select` receives from `stopChan`; the channel is created once in
the constructor and, as the theorem below records, no `Lock`, `Unlock`
or `Renew` of any adapter ever closes it or sends on it — `Unlock` only
calls `Ticker.Stop` — so a renewal goroutine spawned by a successful
`Lock` is never signalled to terminate through the stop channel. -/

/-- C10: for every adapter and every operation, from every locker state
and backend state, the performed action list contains no close of and no
send on the stop channel. -/
theorem C10_no_stop_channel_signal :
    (∀ (l : GORMLocker) (db : GormDB) (now : Nat),
      noStopSignal (gormLock l db now).2.2.2 = true ∧
      noStopSignal (gormUnlock l db).2.2.2 = true ∧
      noStopSignal (gormRenew l db now).2.2.2 = true) ∧
    (∀ (l : MongoLocker) (coll : MongoColl) (now : Nat),
      noStopSignal (mongoLock l coll now).2.2.2 = true ∧
      noStopSignal (mongoUnlock l coll).2.2.2 = true ∧
      noStopSignal (mongoRenew l coll now).2.2.2 = true) ∧
    (∀ (l : ZookeeperLocker) (nodes : ZkNodes),
      noStopSignal (zkLock l nodes).2.2.2 = true ∧
      noStopSignal (zkUnlock l nodes).2.2.2 = true ∧
      noStopSignal (zkRenew l nodes).2.2.2 = true) ∧
    (∀ (l : EtcdLocker) (b : EtcdBackend),
      noStopSignal (etcdLock l b).2.2.2 = true ∧
      noStopSignal (etcdUnlock l b).2.2.2 = true ∧
      noStopSignal (etcdRenew l b).2.2.2 = true) ∧
    (∀ (l : RedisLocker) (st : RedisStore),
      noStopSignal (redisLock l st).2.2.2 = true ∧
      noStopSignal (redisUnlock l st).2.2.2 = true ∧
      noStopSignal (redisRenew l st).2.2.2 = true) ∧
    (∀ (l : MemcachedLocker) (st : McStore),
      noStopSignal (memcachedLock l st).2.2.2 = true ∧
      noStopSignal (memcachedUnlock l st).2.2.2 = true ∧
      noStopSignal (memcachedRenew l st).2.2.2 = true) ∧
    (∀ (l : ConsulLocker) (b : ConsulBackend),
      noStopSignal (consulLock l b).2.2.2 = true ∧
      noStopSignal (consulUnlock l b).2.2.2 = true ∧
      noStopSignal (consulRenew l b).2.2.2 = true) := by
  refine ⟨?_, ?_, ?_, ?_, ?_, ?_, ?_⟩
  · intro l db now
    refine ⟨?_, ?_, ?_⟩
    · simp only [gormLock]
      split
      · rfl
      · split <;> rfl
    · simp only [gormUnlock]
      split <;> rfl
    · rfl
  · intro l coll now
    refine ⟨rfl, ?_, rfl⟩
    simp only [mongoUnlock]
    split <;> rfl
  · intro l nodes
    refine ⟨?_, ?_, rfl⟩
    · simp only [zkLock]
      split <;> rfl
    · simp only [zkUnlock]
      split <;> (first | rfl | (split <;> rfl))
  · intro l b
    refine ⟨rfl, ?_, ?_⟩
    · simp only [etcdUnlock]
      split <;> (first | rfl | (split <;> rfl))
    · simp only [etcdRenew]
      split <;> rfl
  · intro l st
    refine ⟨?_, ?_, rfl⟩
    · simp only [redisLock]
      split
      · rfl
      · split <;> rfl
    · simp only [redisUnlock]
      split <;> rfl
  · intro l st
    refine ⟨?_, ?_, ?_⟩
    · simp only [memcachedLock]
      split <;> rfl
    · simp only [memcachedUnlock]
      split <;> (first | rfl | (split <;> rfl))
    · simp only [memcachedRenew]
      split <;> rfl
  · intro l b
    refine ⟨rfl, ?_, ?_⟩
    · simp only [consulUnlock]
      split <;> rfl
    · simp only [consulRenew]
      split <;> rfl

end Distlock
